import Mathlib

/-!
Verification of the sequential SfM reconstruction engine base class
(`src/openMVG/sfm/pipelines/sequential/sequential_SfM_base.hpp`) of openMVG
against its natural-language specification.

The configuration state, setters and query functions of
`SequentialSfMReconstructionEngineBase` are embedded shallowly: the C++ class
becomes a Lean structure, each inline member function becomes a Lean function
on that structure.  Machine integers (`uint32_t` / `unsigned`) are modelled as
`Nat`: every operation the header performs on them (store, load, compare) is
overflow-free.  Parts of the engine whose implementation is not part of the
translated source (the driver loop, the residual statistics routine) are
modelled from the specification; their doc comments say so explicitly.
-/

namespace OpenMVG

/-- `MultiviewMatchConstraint` (from `multiview_match_constraint.hpp`, whose
definition is not under the translated sources).  Modelled from the spec:
a two-valued enumeration {UNCONSTRAINED, ORIENTATION}. -/
inductive MultiviewMatchConstraint
  | UNCONSTRAINED
  | ORIENTATION
deriving DecidableEq

/-- `cameras::EINTRINSIC` camera-model tags.  Modelled from the spec:
model tag ∈ {pinhole, pinhole+radial-k1, pinhole+radial-k3, brown, fisheye}. -/
inductive EINTRINSIC
  | PINHOLE_CAMERA
  | PINHOLE_CAMERA_RADIAL1
  | PINHOLE_CAMERA_RADIAL3
  | PINHOLE_CAMERA_BROWN
  | PINHOLE_CAMERA_FISHEYE
deriving DecidableEq

/-- `ETriangulationMethod` (from `triangulation_method.hpp`, not under the
translated sources).  Modelled from the spec: {DIRECT_LINEAR, L1_ANGULAR,
LINFINITY_ANGULAR, INVERSE_DEPTH_WEIGHTED, DEFAULT}. -/
inductive ETriangulationMethod
  | DIRECT_LINEAR
  | L1_ANGULAR
  | LINFINITY_ANGULAR
  | INVERSE_DEPTH_WEIGHTED
  | DEFAULT
deriving DecidableEq

/-- `resection::SolverType` (from `solver_resection.hpp`, not under the
translated sources).  Modelled from the spec: {P3P_KE, P3P_KNEIP,
P3P_NORDBERG, UP2P_KUKELOVA, EPNP, DLT_6POINTS, DEFAULT}. -/
inductive SolverType
  | P3P_KE
  | P3P_KNEIP
  | P3P_NORDBERG
  | UP2P_KUKELOVA
  | EPNP
  | DLT_6POINTS
  | DEFAULT
deriving DecidableEq

/-- `Pair`: a pair of view identifiers (`std::pair<uint32_t, uint32_t>`). -/
abbrev Pair := Nat × Nat

/-- `Triplet`: a triple of view identifiers; the header accesses its third
component with `std::get<2>` and compares whole triplets with `!=`. -/
abbrev Triplet := Nat × Nat × Nat

/-- `maximum_trifocal_ransac_iterations_DEFAULT = 100` (header line 93). -/
def maximum_trifocal_ransac_iterations_DEFAULT : Nat := 100

/-- The data members of `SequentialSfMReconstructionEngineBase` (header lines
116-150).  Pointers and opaque collaborator objects are modelled by `Option Nat`
identities; the associative containers by association lists; `std::set<uint32_t>
set_remaining_view_id_` by a list of identifiers. -/
structure SequentialSfMReconstructionEngineBase where
  html_doc_stream_ : Option Nat
  sLogging_file_ : String
  multiview_match_constraint_ : MultiviewMatchConstraint
  initial_triplet_ : Triplet
  initial_pair_ : Pair
  cam_type_ : EINTRINSIC
  features_provider_ : Option Nat
  matches_provider_ : Option Nat
  map_tracks_ : List (Nat × List (Nat × Nat))
  shared_track_visibility_helper_ : Option Nat
  map_ACThreshold_ : List (Nat × Rat)
  set_remaining_view_id_ : List Nat
  triangulation_method_ : ETriangulationMethod
  resection_method_ : SolverType
  maximum_trifocal_ransac_iterations_ : Nat

/-- Engine construction.  The constructor body lives in a source file outside
the translated sources; the fields carrying default member initializers in the
header (`triangulation_method_`, `resection_method_`,
`maximum_trifocal_ransac_iterations_`, lines 146-150) take exactly those
values, and the fields the header leaves to the constructor are taken as
parameters. -/
def construct (loggingFile : String) (mc : MultiviewMatchConstraint)
    (tri : Triplet) (pr : Pair) (ct : EINTRINSIC) :
    SequentialSfMReconstructionEngineBase :=
  { html_doc_stream_ := none
    sLogging_file_ := loggingFile
    multiview_match_constraint_ := mc
    initial_triplet_ := tri
    initial_pair_ := pr
    cam_type_ := ct
    features_provider_ := none
    matches_provider_ := none
    map_tracks_ := []
    shared_track_visibility_helper_ := none
    map_ACThreshold_ := []
    set_remaining_view_id_ := []
    triangulation_method_ := ETriangulationMethod.DEFAULT
    resection_method_ := SolverType.DEFAULT
    maximum_trifocal_ransac_iterations_ := maximum_trifocal_ransac_iterations_DEFAULT }

/-- `SetMultiviewMatchConstraint` (header lines 52-53). -/
def SetMultiviewMatchConstraint (e : SequentialSfMReconstructionEngineBase)
    (c : MultiviewMatchConstraint) : SequentialSfMReconstructionEngineBase :=
  { e with multiview_match_constraint_ := c }

/-- `UseOrientedConstraint` (header line 55):
`multiview_match_constraint_ == MultiviewMatchConstraint::ORIENTATION`. -/
def UseOrientedConstraint (e : SequentialSfMReconstructionEngineBase) : Bool :=
  decide (e.multiview_match_constraint_ = MultiviewMatchConstraint.ORIENTATION)

/-- `setInitialPair` (header lines 57-58). -/
def setInitialPair (e : SequentialSfMReconstructionEngineBase) (initialPair : Pair) :
    SequentialSfMReconstructionEngineBase :=
  { e with initial_pair_ := initialPair }

/-- `setInitialTriplet` (header lines 59-60). -/
def setInitialTriplet (e : SequentialSfMReconstructionEngineBase) (initialTriplet : Triplet) :
    SequentialSfMReconstructionEngineBase :=
  { e with initial_triplet_ := initialTriplet }

/-- `hasInitialPair` (header line 61): `initial_pair_ != Pair(0,0)`. -/
def hasInitialPair (e : SequentialSfMReconstructionEngineBase) : Bool :=
  decide (e.initial_pair_ ≠ (0, 0))

/-- `hasInitialTriplet` (header line 62): `initial_triplet_ != Triplet(0,0,0)`. -/
def hasInitialTriplet (e : SequentialSfMReconstructionEngineBase) : Bool :=
  decide (e.initial_triplet_ ≠ (0, 0, 0))

/-- `using_initial_triple` (header line 114):
`std::get<2>(initial_triplet_) != 0`. -/
def using_initial_triple (e : SequentialSfMReconstructionEngineBase) : Bool :=
  decide (e.initial_triplet_.2.2 ≠ 0)

/-- `SetUnknownCameraType` (header lines 76-77). -/
def SetUnknownCameraType (e : SequentialSfMReconstructionEngineBase)
    (camType : EINTRINSIC) : SequentialSfMReconstructionEngineBase :=
  { e with cam_type_ := camType }

/-- `SetTriangulationMethod` (header lines 80-81). -/
def SetTriangulationMethod (e : SequentialSfMReconstructionEngineBase)
    (method : ETriangulationMethod) : SequentialSfMReconstructionEngineBase :=
  { e with triangulation_method_ := method }

/-- `SetResectionMethod` (header lines 84-85). -/
def SetResectionMethod (e : SequentialSfMReconstructionEngineBase)
    (method : SolverType) : SequentialSfMReconstructionEngineBase :=
  { e with resection_method_ := method }

/-- `SetMaximumTrifocalRansacIterations` (header lines 87-88). -/
def SetMaximumTrifocalRansacIterations (e : SequentialSfMReconstructionEngineBase)
    (n : Nat) : SequentialSfMReconstructionEngineBase :=
  { e with maximum_trifocal_ransac_iterations_ := n }

/-- `MaximumTrifocalRansacIterations` (header lines 90-91). -/
def MaximumTrifocalRansacIterations (e : SequentialSfMReconstructionEngineBase) : Nat :=
  e.maximum_trifocal_ransac_iterations_

/-- Modelled from the spec: the bucket index a residual value falls into.
The histogram has fixed bin edges 0.0…4.0 pixels in 0.1 steps (bucket `k`,
`k < 40`, covers `[k/10, (k+1)/10)`) plus one overflow bucket (index 40) for
residuals of 4.0 pixels or more.  (The body of `ComputeResidualsHistogram`
is not under the translated sources; only its declaration, header line 106.) -/
def residualBinIndex (x : Rat) : Nat :=
  if x < 4 then Nat.floor (x * 10) else 40

/-- Modelled from the spec: the 41 bucket counts of the residual histogram,
bucket `k` counting the residuals whose bin index is `k`. -/
def residualHistogramCounts (rs : List Rat) : List Nat :=
  (List.range 41).map fun k => (rs.filter fun x => decide (residualBinIndex x = k)).length

/-- Modelled from the spec: the residual-statistics routine
`ComputeResidualsHistogram` returns the root-mean-square reprojection error of
the current reconstruction together with the residual histogram.  Residual
magnitudes are modelled as rationals; the RMS value lives in `Real`. -/
noncomputable def ComputeResidualsHistogram (rs : List Rat) : Real × List Nat :=
  (Real.sqrt ((((rs.map fun x => x * x).sum / (rs.length : Rat) : Rat) : Real)),
   residualHistogramCounts rs)

/-- Engine-driver phases.  Modelled from the spec state machine:
`INIT → SEED_READY → RECONSTRUCTING → FINALIZING → DONE`, with `FAILED`
terminal and reachable from any state.  (The driver loop is not under the
translated sources.) -/
inductive Phase
  | INIT
  | SEED_READY
  | RECONSTRUCTING
  | FINALIZING
  | DONE
  | FAILED
deriving DecidableEq

/-- Modelled from the spec: the driver-visible view bookkeeping — the original
view set, the views dropped for having zero usable tracks, the Registered-View
Set and the Remaining-View Set — together with the current phase. -/
structure DriverState where
  phase : Phase
  allViews : Finset Nat
  dropped : Finset Nat
  registered : Finset Nat
  remaining : Finset Nat

/-- Modelled from the spec: the driver's starting state — no views dropped,
none registered, every view still remaining. -/
def initState (v : Finset Nat) : DriverState :=
  { phase := Phase.INIT, allViews := v, dropped := ∅, registered := ∅, remaining := v }

/-- Labels of the accepted driver transitions. -/
inductive StepLabel
  | buildTracks
  | registerSeedViews
  | initSucceed
  | rollback
  | resectBatch
  | emptySchedule
  | finalRefine
  | failure
deriving DecidableEq

/-- Modelled from the spec: the accepted transitions of the engine driver.
`buildTracks` drops the views with zero usable tracks and reaches
`SEED_READY`; `registerSeedViews` registers seed views during initialization;
`initSucceed` enters the reconstruction loop; `rollback` (initialization only)
returns the registered seed views to the Remaining-View Set; `resectBatch`
registers a scheduled batch; `emptySchedule` leaves the loop for `FINALIZING`;
`finalRefine` reaches `DONE`; `failure` may abort from any state. -/
inductive Step : DriverState → StepLabel → DriverState → Prop
  | buildTracks (s : DriverState) (d : Finset Nat)
      (hp : s.phase = Phase.INIT) (hd : Disjoint d s.registered) :
      Step s StepLabel.buildTracks
        { s with phase := Phase.SEED_READY, dropped := s.dropped ∪ d,
                 remaining := s.remaining \ d }
  | registerSeedViews (s : DriverState) (seed : Finset Nat)
      (hp : s.phase = Phase.SEED_READY) (hs : seed ⊆ s.remaining) :
      Step s StepLabel.registerSeedViews
        { s with registered := s.registered ∪ seed, remaining := s.remaining \ seed }
  | initSucceed (s : DriverState) (hp : s.phase = Phase.SEED_READY) :
      Step s StepLabel.initSucceed { s with phase := Phase.RECONSTRUCTING }
  | rollback (s : DriverState) (hp : s.phase = Phase.SEED_READY) :
      Step s StepLabel.rollback
        { s with registered := ∅, remaining := s.remaining ∪ s.registered }
  | resectBatch (s : DriverState) (batch : Finset Nat)
      (hp : s.phase = Phase.RECONSTRUCTING) (hb : batch.Nonempty)
      (hs : batch ⊆ s.remaining) :
      Step s StepLabel.resectBatch
        { s with registered := s.registered ∪ batch, remaining := s.remaining \ batch }
  | emptySchedule (s : DriverState) (hp : s.phase = Phase.RECONSTRUCTING) :
      Step s StepLabel.emptySchedule { s with phase := Phase.FINALIZING }
  | finalRefine (s : DriverState) (hp : s.phase = Phase.FINALIZING) :
      Step s StepLabel.finalRefine { s with phase := Phase.DONE }
  | failure (s : DriverState) : Step s StepLabel.failure { s with phase := Phase.FAILED }

/-- The driver states reachable from `initState v` by accepted transitions. -/
inductive Reach (v : Finset Nat) : DriverState → Prop
  | init : Reach v (initState v)
  | step {s : DriverState} {l : StepLabel} {s' : DriverState} :
      Reach v s → Step s l s' → Reach v s'

/-- The view-partition invariant: the Registered-View Set and the
Remaining-View Set are disjoint and their union is the original view set minus
the dropped views. -/
def ViewPartitionInv (s : DriverState) : Prop :=
  Disjoint s.registered s.remaining ∧
  s.registered ∪ s.remaining = s.allViews \ s.dropped

/-- Modelled from the spec: one iteration of the driver loop as a function.
`sched` is the Resection Scheduler oracle (`FindImagesWithPossibleResection`,
whose body is not under the translated sources, returns the ranked candidate
list); `adv` abstracts the transitions taken before the reconstruction loop.
In `RECONSTRUCTING`, an empty scheduler result moves to `FINALIZING` — it is
never treated as an error — and a nonempty result resects its best candidate. -/
def driverStep (sched : DriverState → List Nat) (adv : DriverState → DriverState)
    (s : DriverState) : DriverState :=
  match s.phase with
  | Phase.INIT => adv s
  | Phase.SEED_READY => adv s
  | Phase.RECONSTRUCTING =>
    match sched s with
    | [] => { s with phase := Phase.FINALIZING }
    | v :: _ =>
      { s with registered := insert v s.registered, remaining := s.remaining.erase v }
  | Phase.FINALIZING => { s with phase := Phase.DONE }
  | Phase.DONE => s
  | Phase.FAILED => s

/-- A concrete logging-file argument used by concrete instances. -/
def sampleLog : String := ""

/-- A concrete engine used by concrete instances: freshly constructed, both
seeds at the zero sentinel. -/
def sampleEngine : SequentialSfMReconstructionEngineBase :=
  construct sampleLog MultiviewMatchConstraint.UNCONSTRAINED (0, 0, 0) (0, 0)
    EINTRINSIC.PINHOLE_CAMERA

/-- C1 (counterexample): at the triplet `(1, 2, 0)` — which differs from the
zero sentinel `(0, 0, 0)` but has a zero third component — the claim fails:
after `setInitialTriplet (1, 2, 0)`, `hasInitialTriplet` returns `true` but
`using_initial_triple` returns `false`, so "both return true iff the triplet
is not (0,0,0)" is false. -/
theorem C1_counterexample :
    ¬ ((hasInitialTriplet (setInitialTriplet sampleEngine (1, 2, 0)) = true ∧
        using_initial_triple (setInitialTriplet sampleEngine (1, 2, 0)) = true) ↔
       (1, 2, 0) ≠ ((0, 0, 0) : Triplet)) := by
  decide

/-- C1 (amended): for every pair `p`, `hasInitialPair` after
`setInitialPair p` returns true iff `p ≠ (0,0)`; for every triplet `t`, after
`setInitialTriplet t`, `hasInitialTriplet` returns true iff `t ≠ (0,0,0)`,
while `using_initial_triple` returns true iff the third component of `t` is
nonzero. -/
theorem C1_amended (e : SequentialSfMReconstructionEngineBase) (p : Pair) (t : Triplet) :
    (hasInitialPair (setInitialPair e p) = true ↔ p ≠ (0, 0)) ∧
    (hasInitialTriplet (setInitialTriplet e t) = true ↔ t ≠ (0, 0, 0)) ∧
    (using_initial_triple (setInitialTriplet e t) = true ↔ t.2.2 ≠ 0) := by
  simp [hasInitialPair, setInitialPair, hasInitialTriplet, setInitialTriplet,
        using_initial_triple]

/-- C3: if `SetMaximumTrifocalRansacIterations` is never called,
`MaximumTrifocalRansacIterations()` returns 100, the default bound on trifocal
RANSAC iterations. -/
theorem C3_default_trifocal_iterations (lf : String) (mc : MultiviewMatchConstraint)
    (tri : Triplet) (pr : Pair) (ct : EINTRINSIC) :
    maximum_trifocal_ransac_iterations_DEFAULT = 100 ∧
    MaximumTrifocalRansacIterations (construct lf mc tri pr ct) = 100 :=
  ⟨rfl, rfl⟩

/-- C4: after `SetMultiviewMatchConstraint c`, `UseOrientedConstraint()`
returns true iff `c` is the `ORIENTATION` variant of the two-valued
match-constraint enumeration. -/
theorem C4_oriented_constraint (e : SequentialSfMReconstructionEngineBase)
    (c : MultiviewMatchConstraint) :
    UseOrientedConstraint (SetMultiviewMatchConstraint e c) = true ↔
      c = MultiviewMatchConstraint.ORIENTATION := by
  simp [UseOrientedConstraint, SetMultiviewMatchConstraint]

/-- C5: `SetMaximumTrifocalRansacIterations n` followed by
`MaximumTrifocalRansacIterations()` yields exactly `n`, and the value is
unchanged by every other configuration setter. -/
theorem C5_trifocal_roundtrip (e : SequentialSfMReconstructionEngineBase) (n : Nat) :
    MaximumTrifocalRansacIterations (SetMaximumTrifocalRansacIterations e n) = n ∧
    (∀ c, MaximumTrifocalRansacIterations
      (SetMultiviewMatchConstraint (SetMaximumTrifocalRansacIterations e n) c) = n) ∧
    (∀ p, MaximumTrifocalRansacIterations
      (setInitialPair (SetMaximumTrifocalRansacIterations e n) p) = n) ∧
    (∀ t, MaximumTrifocalRansacIterations
      (setInitialTriplet (SetMaximumTrifocalRansacIterations e n) t) = n) ∧
    (∀ ct, MaximumTrifocalRansacIterations
      (SetUnknownCameraType (SetMaximumTrifocalRansacIterations e n) ct) = n) ∧
    (∀ tm, MaximumTrifocalRansacIterations
      (SetTriangulationMethod (SetMaximumTrifocalRansacIterations e n) tm) = n) ∧
    (∀ rm, MaximumTrifocalRansacIterations
      (SetResectionMethod (SetMaximumTrifocalRansacIterations e n) rm) = n) :=
  ⟨rfl, fun _ => rfl, fun _ => rfl, fun _ => rfl, fun _ => rfl, fun _ => rfl, fun _ => rfl⟩

/-- C9: on construction, before any configuration setter is called, the
triangulation method is the `DEFAULT` variant of the triangulation-method
enumeration and the resection method is the `DEFAULT` variant of the
resection-solver enumeration (default member initializers, header lines
146-148). -/
theorem C9_default_methods (lf : String) (mc : MultiviewMatchConstraint)
    (tri : Triplet) (pr : Pair) (ct : EINTRINSIC) :
    (construct lf mc tri pr ct).triangulation_method_ = ETriangulationMethod.DEFAULT ∧
    (construct lf mc tri pr ct).resection_method_ = SolverType.DEFAULT :=
  ⟨rfl, rfl⟩

/-- C10: each configuration setter writes exactly its one configuration field
and leaves every other data member of the engine unchanged. -/
theorem C10_setter_frame (e : SequentialSfMReconstructionEngineBase)
    (c : MultiviewMatchConstraint) (p : Pair) (t : Triplet) (ct : EINTRINSIC)
    (tm : ETriangulationMethod) (rm : SolverType) (n : Nat) :
    ((SetMultiviewMatchConstraint e c).multiview_match_constraint_ = c ∧
     (SetMultiviewMatchConstraint e c).html_doc_stream_ = e.html_doc_stream_ ∧
     (SetMultiviewMatchConstraint e c).sLogging_file_ = e.sLogging_file_ ∧
     (SetMultiviewMatchConstraint e c).initial_triplet_ = e.initial_triplet_ ∧
     (SetMultiviewMatchConstraint e c).initial_pair_ = e.initial_pair_ ∧
     (SetMultiviewMatchConstraint e c).cam_type_ = e.cam_type_ ∧
     (SetMultiviewMatchConstraint e c).features_provider_ = e.features_provider_ ∧
     (SetMultiviewMatchConstraint e c).matches_provider_ = e.matches_provider_ ∧
     (SetMultiviewMatchConstraint e c).map_tracks_ = e.map_tracks_ ∧
     (SetMultiviewMatchConstraint e c).shared_track_visibility_helper_ =
       e.shared_track_visibility_helper_ ∧
     (SetMultiviewMatchConstraint e c).map_ACThreshold_ = e.map_ACThreshold_ ∧
     (SetMultiviewMatchConstraint e c).set_remaining_view_id_ = e.set_remaining_view_id_ ∧
     (SetMultiviewMatchConstraint e c).triangulation_method_ = e.triangulation_method_ ∧
     (SetMultiviewMatchConstraint e c).resection_method_ = e.resection_method_ ∧
     (SetMultiviewMatchConstraint e c).maximum_trifocal_ransac_iterations_ =
       e.maximum_trifocal_ransac_iterations_) ∧
    ((setInitialPair e p).initial_pair_ = p ∧
     (setInitialPair e p).html_doc_stream_ = e.html_doc_stream_ ∧
     (setInitialPair e p).sLogging_file_ = e.sLogging_file_ ∧
     (setInitialPair e p).multiview_match_constraint_ = e.multiview_match_constraint_ ∧
     (setInitialPair e p).initial_triplet_ = e.initial_triplet_ ∧
     (setInitialPair e p).cam_type_ = e.cam_type_ ∧
     (setInitialPair e p).features_provider_ = e.features_provider_ ∧
     (setInitialPair e p).matches_provider_ = e.matches_provider_ ∧
     (setInitialPair e p).map_tracks_ = e.map_tracks_ ∧
     (setInitialPair e p).shared_track_visibility_helper_ =
       e.shared_track_visibility_helper_ ∧
     (setInitialPair e p).map_ACThreshold_ = e.map_ACThreshold_ ∧
     (setInitialPair e p).set_remaining_view_id_ = e.set_remaining_view_id_ ∧
     (setInitialPair e p).triangulation_method_ = e.triangulation_method_ ∧
     (setInitialPair e p).resection_method_ = e.resection_method_ ∧
     (setInitialPair e p).maximum_trifocal_ransac_iterations_ =
       e.maximum_trifocal_ransac_iterations_) ∧
    ((setInitialTriplet e t).initial_triplet_ = t ∧
     (setInitialTriplet e t).html_doc_stream_ = e.html_doc_stream_ ∧
     (setInitialTriplet e t).sLogging_file_ = e.sLogging_file_ ∧
     (setInitialTriplet e t).multiview_match_constraint_ = e.multiview_match_constraint_ ∧
     (setInitialTriplet e t).initial_pair_ = e.initial_pair_ ∧
     (setInitialTriplet e t).cam_type_ = e.cam_type_ ∧
     (setInitialTriplet e t).features_provider_ = e.features_provider_ ∧
     (setInitialTriplet e t).matches_provider_ = e.matches_provider_ ∧
     (setInitialTriplet e t).map_tracks_ = e.map_tracks_ ∧
     (setInitialTriplet e t).shared_track_visibility_helper_ =
       e.shared_track_visibility_helper_ ∧
     (setInitialTriplet e t).map_ACThreshold_ = e.map_ACThreshold_ ∧
     (setInitialTriplet e t).set_remaining_view_id_ = e.set_remaining_view_id_ ∧
     (setInitialTriplet e t).triangulation_method_ = e.triangulation_method_ ∧
     (setInitialTriplet e t).resection_method_ = e.resection_method_ ∧
     (setInitialTriplet e t).maximum_trifocal_ransac_iterations_ =
       e.maximum_trifocal_ransac_iterations_) ∧
    ((SetUnknownCameraType e ct).cam_type_ = ct ∧
     (SetUnknownCameraType e ct).html_doc_stream_ = e.html_doc_stream_ ∧
     (SetUnknownCameraType e ct).sLogging_file_ = e.sLogging_file_ ∧
     (SetUnknownCameraType e ct).multiview_match_constraint_ =
       e.multiview_match_constraint_ ∧
     (SetUnknownCameraType e ct).initial_triplet_ = e.initial_triplet_ ∧
     (SetUnknownCameraType e ct).initial_pair_ = e.initial_pair_ ∧
     (SetUnknownCameraType e ct).features_provider_ = e.features_provider_ ∧
     (SetUnknownCameraType e ct).matches_provider_ = e.matches_provider_ ∧
     (SetUnknownCameraType e ct).map_tracks_ = e.map_tracks_ ∧
     (SetUnknownCameraType e ct).shared_track_visibility_helper_ =
       e.shared_track_visibility_helper_ ∧
     (SetUnknownCameraType e ct).map_ACThreshold_ = e.map_ACThreshold_ ∧
     (SetUnknownCameraType e ct).set_remaining_view_id_ = e.set_remaining_view_id_ ∧
     (SetUnknownCameraType e ct).triangulation_method_ = e.triangulation_method_ ∧
     (SetUnknownCameraType e ct).resection_method_ = e.resection_method_ ∧
     (SetUnknownCameraType e ct).maximum_trifocal_ransac_iterations_ =
       e.maximum_trifocal_ransac_iterations_) ∧
    ((SetTriangulationMethod e tm).triangulation_method_ = tm ∧
     (SetTriangulationMethod e tm).html_doc_stream_ = e.html_doc_stream_ ∧
     (SetTriangulationMethod e tm).sLogging_file_ = e.sLogging_file_ ∧
     (SetTriangulationMethod e tm).multiview_match_constraint_ =
       e.multiview_match_constraint_ ∧
     (SetTriangulationMethod e tm).initial_triplet_ = e.initial_triplet_ ∧
     (SetTriangulationMethod e tm).initial_pair_ = e.initial_pair_ ∧
     (SetTriangulationMethod e tm).cam_type_ = e.cam_type_ ∧
     (SetTriangulationMethod e tm).features_provider_ = e.features_provider_ ∧
     (SetTriangulationMethod e tm).matches_provider_ = e.matches_provider_ ∧
     (SetTriangulationMethod e tm).map_tracks_ = e.map_tracks_ ∧
     (SetTriangulationMethod e tm).shared_track_visibility_helper_ =
       e.shared_track_visibility_helper_ ∧
     (SetTriangulationMethod e tm).map_ACThreshold_ = e.map_ACThreshold_ ∧
     (SetTriangulationMethod e tm).set_remaining_view_id_ = e.set_remaining_view_id_ ∧
     (SetTriangulationMethod e tm).resection_method_ = e.resection_method_ ∧
     (SetTriangulationMethod e tm).maximum_trifocal_ransac_iterations_ =
       e.maximum_trifocal_ransac_iterations_) ∧
    ((SetResectionMethod e rm).resection_method_ = rm ∧
     (SetResectionMethod e rm).html_doc_stream_ = e.html_doc_stream_ ∧
     (SetResectionMethod e rm).sLogging_file_ = e.sLogging_file_ ∧
     (SetResectionMethod e rm).multiview_match_constraint_ =
       e.multiview_match_constraint_ ∧
     (SetResectionMethod e rm).initial_triplet_ = e.initial_triplet_ ∧
     (SetResectionMethod e rm).initial_pair_ = e.initial_pair_ ∧
     (SetResectionMethod e rm).cam_type_ = e.cam_type_ ∧
     (SetResectionMethod e rm).features_provider_ = e.features_provider_ ∧
     (SetResectionMethod e rm).matches_provider_ = e.matches_provider_ ∧
     (SetResectionMethod e rm).map_tracks_ = e.map_tracks_ ∧
     (SetResectionMethod e rm).shared_track_visibility_helper_ =
       e.shared_track_visibility_helper_ ∧
     (SetResectionMethod e rm).map_ACThreshold_ = e.map_ACThreshold_ ∧
     (SetResectionMethod e rm).set_remaining_view_id_ = e.set_remaining_view_id_ ∧
     (SetResectionMethod e rm).triangulation_method_ = e.triangulation_method_ ∧
     (SetResectionMethod e rm).maximum_trifocal_ransac_iterations_ =
       e.maximum_trifocal_ransac_iterations_) ∧
    ((SetMaximumTrifocalRansacIterations e n).maximum_trifocal_ransac_iterations_ = n ∧
     (SetMaximumTrifocalRansacIterations e n).html_doc_stream_ = e.html_doc_stream_ ∧
     (SetMaximumTrifocalRansacIterations e n).sLogging_file_ = e.sLogging_file_ ∧
     (SetMaximumTrifocalRansacIterations e n).multiview_match_constraint_ =
       e.multiview_match_constraint_ ∧
     (SetMaximumTrifocalRansacIterations e n).initial_triplet_ = e.initial_triplet_ ∧
     (SetMaximumTrifocalRansacIterations e n).initial_pair_ = e.initial_pair_ ∧
     (SetMaximumTrifocalRansacIterations e n).cam_type_ = e.cam_type_ ∧
     (SetMaximumTrifocalRansacIterations e n).features_provider_ = e.features_provider_ ∧
     (SetMaximumTrifocalRansacIterations e n).matches_provider_ = e.matches_provider_ ∧
     (SetMaximumTrifocalRansacIterations e n).map_tracks_ = e.map_tracks_ ∧
     (SetMaximumTrifocalRansacIterations e n).shared_track_visibility_helper_ =
       e.shared_track_visibility_helper_ ∧
     (SetMaximumTrifocalRansacIterations e n).map_ACThreshold_ = e.map_ACThreshold_ ∧
     (SetMaximumTrifocalRansacIterations e n).set_remaining_view_id_ =
       e.set_remaining_view_id_ ∧
     (SetMaximumTrifocalRansacIterations e n).triangulation_method_ =
       e.triangulation_method_ ∧
     (SetMaximumTrifocalRansacIterations e n).resection_method_ = e.resection_method_) := by
  refine ⟨?_, ?_, ?_, ?_, ?_, ?_, ?_⟩ <;>
    refine ⟨rfl, rfl, rfl, rfl, rfl, rfl, rfl, rfl, rfl, rfl, rfl, rfl, rfl, rfl, rfl⟩

/-- Every accepted driver transition preserves the view-partition invariant. -/
lemma viewPartitionInv_step {s s' : DriverState} {l : StepLabel}
    (hinv : ViewPartitionInv s) (hstep : Step s l s') : ViewPartitionInv s' := by
  obtain ⟨hdisj, hunion⟩ := hinv
  cases hstep with
  | buildTracks d hp hd =>
    refine ⟨hdisj.mono_right Finset.sdiff_subset, ?_⟩
    have hd' := Finset.disjoint_left.mp hd
    ext x
    have hx := Finset.ext_iff.mp hunion x
    have hxd : x ∈ d → x ∉ s.registered := fun h => hd' h
    simp only [Finset.mem_union, Finset.mem_sdiff] at hx ⊢
    tauto
  | registerSeedViews seed hp hs =>
    constructor
    · refine Finset.disjoint_union_left.mpr
        ⟨hdisj.mono_right Finset.sdiff_subset, ?_⟩
      exact Finset.disjoint_left.mpr fun a ha hmem => (Finset.mem_sdiff.mp hmem).2 ha
    · rw [Finset.union_assoc, Finset.union_sdiff_of_subset hs]
      exact hunion
  | initSucceed hp => exact ⟨hdisj, hunion⟩
  | rollback hp =>
    refine ⟨Finset.disjoint_empty_left _, ?_⟩
    rw [Finset.empty_union, Finset.union_comm]
    exact hunion
  | resectBatch batch hp hb hs =>
    constructor
    · refine Finset.disjoint_union_left.mpr
        ⟨hdisj.mono_right Finset.sdiff_subset, ?_⟩
      exact Finset.disjoint_left.mpr fun a ha hmem => (Finset.mem_sdiff.mp hmem).2 ha
    · rw [Finset.union_assoc, Finset.union_sdiff_of_subset hs]
      exact hunion
  | emptySchedule hp => exact ⟨hdisj, hunion⟩
  | finalRefine hp => exact ⟨hdisj, hunion⟩
  | failure => exact ⟨hdisj, hunion⟩

/-- The view-partition invariant holds in every reachable driver state. -/
lemma reach_viewPartitionInv {v : Finset Nat} {s : DriverState} (h : Reach v s) :
    ViewPartitionInv s := by
  induction h with
  | init => exact ⟨Finset.disjoint_empty_left _, by simp [initState]⟩
  | step hr hstep ih => exact viewPartitionInv_step ih hstep

/-- Every accepted driver transition other than a rollback shrinks (or keeps)
the Remaining-View Set. -/
lemma step_remaining_mono {s s' : DriverState} {l : StepLabel}
    (hstep : Step s l s') (hl : l ≠ StepLabel.rollback) :
    s'.remaining ⊆ s.remaining := by
  cases hstep with
  | buildTracks d hp hd => exact Finset.sdiff_subset
  | registerSeedViews seed hp hs => exact Finset.sdiff_subset
  | initSucceed hp => exact Finset.Subset.refl _
  | rollback hp => exact absurd rfl hl
  | resectBatch batch hp hb hs => exact Finset.sdiff_subset
  | emptySchedule hp => exact Finset.Subset.refl _
  | finalRefine hp => exact Finset.Subset.refl _
  | failure => exact Finset.Subset.refl _

/-- C6: after every accepted transition of the driver the Remaining-View Set
and the Registered-View Set are disjoint and their union is the original view
set minus the views dropped for having zero usable tracks; the Remaining-View
Set never grows except under a rollback, and rollbacks happen only during
initialization (in the `SEED_READY` phase). -/
theorem C6_view_partition_invariant (v : Finset Nat) (s s' : DriverState)
    (l : StepLabel) (hr : Reach v s) (hstep : Step s l s') :
    ViewPartitionInv s' ∧
    (l ≠ StepLabel.rollback → s'.remaining ⊆ s.remaining) ∧
    (l = StepLabel.rollback → s.phase = Phase.SEED_READY) := by
  refine ⟨viewPartitionInv_step (reach_viewPartitionInv hr) hstep,
    fun hl => step_remaining_mono hstep hl, fun hl => ?_⟩
  subst hl
  cases hstep with
  | rollback hp => exact hp

/-- C6 at a concrete instance: from the initial state over views `{0, 1}`, the
`failure` transition is accepted and its target satisfies the view-partition
invariant. -/
theorem C6_view_partition_invariant_witness :
    ViewPartitionInv { phase := Phase.FAILED, allViews := {0, 1}, dropped := ∅,
                       registered := ∅, remaining := {0, 1} } :=
  (C6_view_partition_invariant {0, 1} (initState {0, 1}) _ StepLabel.failure
    Reach.init (Step.failure (initState {0, 1}))).1

/-- From `FINALIZING` or `DONE`, one driver iteration lands in `DONE`. -/
lemma driverStep_phase_done (sched : DriverState → List Nat)
    (adv : DriverState → DriverState) {t : DriverState}
    (h : t.phase = Phase.FINALIZING ∨ t.phase = Phase.DONE) :
    (driverStep sched adv t).phase = Phase.DONE := by
  rcases h with h | h <;> simp [driverStep, h]

/-- C7: in the `RECONSTRUCTING` phase, an empty Resection-Scheduler result
makes the driver transition to `FINALIZING` — never to `FAILED` — and no later
iteration of that run ever re-enters `RECONSTRUCTING` (so no further resection
is attempted). -/
theorem C7_empty_schedule_finalizes (sched : DriverState → List Nat)
    (adv : DriverState → DriverState) (s : DriverState)
    (hp : s.phase = Phase.RECONSTRUCTING) (he : sched s = []) :
    (driverStep sched adv s).phase = Phase.FINALIZING ∧
    (driverStep sched adv s).phase ≠ Phase.FAILED ∧
    ∀ n, 1 ≤ n → ((driverStep sched adv)^[n] s).phase ≠ Phase.RECONSTRUCTING := by
  have h1 : (driverStep sched adv s).phase = Phase.FINALIZING := by
    simp [driverStep, hp, he]
  have key : ∀ m, ((driverStep sched adv)^[m] (driverStep sched adv s)).phase
      = Phase.FINALIZING ∨
      ((driverStep sched adv)^[m] (driverStep sched adv s)).phase = Phase.DONE := by
    intro m
    induction m with
    | zero => exact Or.inl h1
    | succ k ih =>
      rw [Function.iterate_succ_apply']
      exact Or.inr (driverStep_phase_done sched adv ih)
  refine ⟨h1, by simp [h1], ?_⟩
  intro n hn
  obtain ⟨m, rfl⟩ : ∃ m, n = m + 1 := ⟨n - 1, by omega⟩
  rw [Function.iterate_succ_apply]
  rcases key m with h | h <;> simp [h]

/-- C7 at a concrete instance: with a scheduler that returns no candidate, the
driver leaves a concrete `RECONSTRUCTING` state for `FINALIZING`. -/
theorem C7_empty_schedule_finalizes_witness :
    (driverStep (fun _ => []) id
      { phase := Phase.RECONSTRUCTING, allViews := ∅, dropped := ∅,
        registered := ∅, remaining := ∅ }).phase = Phase.FINALIZING :=
  (C7_empty_schedule_finalizes (fun _ => []) id
    { phase := Phase.RECONSTRUCTING, allViews := ∅, dropped := ∅,
      registered := ∅, remaining := ∅ } rfl rfl).1

/-- Every residual falls into one of the 41 buckets. -/
lemma residualBinIndex_le (x : Rat) : residualBinIndex x ≤ 40 := by
  unfold residualBinIndex
  by_cases h4 : x < 4
  · simp only [if_pos h4]
    rcases le_or_lt 0 x with hx | hx
    · have hfl : Nat.floor (x * 10) < 40 := by
        apply (Nat.floor_lt (mul_nonneg hx (by norm_num : (0 : Rat) ≤ 10))).mpr
        push_cast
        linarith
      omega
    · rw [Nat.floor_of_nonpos (by nlinarith)]
      omega
  · simp [if_neg h4]

/-- For a nonnegative residual, bucket `k < 40` is exactly the interval
`[k/10, (k+1)/10)` of the 0.1-pixel grid. -/
lemma residualBinIndex_eq_iff (x : Rat) (hx : 0 ≤ x) (k : Nat) (hk : k < 40) :
    residualBinIndex x = k ↔ ((k : Rat) / 10 ≤ x ∧ x < ((k : Rat) + 1) / 10) := by
  unfold residualBinIndex
  by_cases h4 : x < 4
  · rw [if_pos h4, Nat.floor_eq_iff (mul_nonneg hx (by norm_num : (0 : Rat) ≤ 10)),
      div_le_iff₀ (by norm_num : (0 : Rat) < 10),
      lt_div_iff₀ (by norm_num : (0 : Rat) < 10)]
  · rw [if_neg h4]
    push_neg at h4
    constructor
    · intro h; omega
    · rintro ⟨h1, h2⟩
      exfalso
      have hk4 : ((k : Rat) + 1) / 10 ≤ 4 := by
        rw [div_le_iff₀ (by norm_num : (0 : Rat) < 10)]
        have hbound : (k : Rat) ≤ 39 := by exact_mod_cast (by omega : k ≤ 39)
        linarith
      linarith

/-- For a nonnegative residual, the overflow bucket is exactly `4.0 ≤ x`. -/
lemma residualBinIndex_eq_forty_iff (x : Rat) (hx : 0 ≤ x) :
    residualBinIndex x = 40 ↔ 4 ≤ x := by
  unfold residualBinIndex
  by_cases h4 : x < 4
  · rw [if_pos h4]
    constructor
    · intro h
      exfalso
      have hfl : Nat.floor (x * 10) < 40 := by
        apply (Nat.floor_lt (mul_nonneg hx (by norm_num : (0 : Rat) ≤ 10))).mpr
        push_cast
        linarith
      omega
    · intro h; linarith
  · rw [if_neg h4]
    push_neg at h4
    exact ⟨fun _ => h4, fun _ => rfl⟩

/-- The histogram's bucket `k` holds the count of residuals with bin index `k`. -/
lemma residualHistogramCounts_get (rs : List Rat) (k : Nat) (hk : k < 41) :
    (residualHistogramCounts rs)[k]? =
      some ((rs.filter fun x => decide (residualBinIndex x = k)).length) := by
  unfold residualHistogramCounts
  rw [List.getElem?_map, List.getElem?_range hk]
  rfl

/-- A sum of squared residuals is nonnegative. -/
lemma sumSq_nonneg (rs : List Rat) : 0 ≤ (rs.map fun x => x * x).sum := by
  refine List.sum_nonneg ?_
  intro y hy
  obtain ⟨x, _, rfl⟩ := List.mem_map.mp hy
  exact mul_self_nonneg x

/-- C2: the residual-statistics routine returns the root-mean-square
reprojection error (its square times the residual count is the sum of squared
residuals, and it is nonnegative) together with a histogram of 41 buckets with
fixed edges: bucket `k < 40` counts the residuals in `[k·0.1, (k+1)·0.1)`
pixels and bucket 40 is the overflow bucket counting residuals `≥ 4.0`
pixels; every residual falls into a bucket. -/
theorem C2_residual_statistics (rs : List Rat) (hnn : ∀ x ∈ rs, 0 ≤ x) :
    0 ≤ (ComputeResidualsHistogram rs).1 ∧
    (ComputeResidualsHistogram rs).1 ^ 2 * (rs.length : Real)
      = (((rs.map fun x => x * x).sum : Rat) : Real) ∧
    (ComputeResidualsHistogram rs).2.length = 41 ∧
    (∀ x ∈ rs, residualBinIndex x ≤ 40) ∧
    (∀ k : Nat, k < 40 →
      (ComputeResidualsHistogram rs).2[k]? =
        some ((rs.filter fun x =>
          decide ((k : Rat) / 10 ≤ x ∧ x < ((k : Rat) + 1) / 10)).length)) ∧
    (ComputeResidualsHistogram rs).2[40]? =
      some ((rs.filter fun x => decide ((4 : Rat) ≤ x)).length) := by
  have hS : 0 ≤ (rs.map fun x => x * x).sum := sumSq_nonneg rs
  have hsq : ((ComputeResidualsHistogram rs).1) ^ 2
      = ((((rs.map fun x => x * x).sum / (rs.length : Rat) : Rat)) : Real) :=
    Real.sq_sqrt (by
      rw [Rat.cast_nonneg]
      exact div_nonneg hS (Nat.cast_nonneg _))
  refine ⟨Real.sqrt_nonneg _, ?_, ?_, fun x _ => residualBinIndex_le x, ?_, ?_⟩
  · rcases Nat.eq_zero_or_pos rs.length with hL | hL
    · have hrs : rs = [] := List.length_eq_zero.mp hL
      subst hrs
      norm_num [ComputeResidualsHistogram]
    · rw [hsq, Rat.cast_div, Rat.cast_natCast]
      exact div_mul_cancel₀ _
        (Nat.cast_ne_zero.mpr (Nat.pos_iff_ne_zero.mp hL))
  · simp [ComputeResidualsHistogram, residualHistogramCounts]
  · intro k hk
    show (residualHistogramCounts rs)[k]? = _
    rw [residualHistogramCounts_get rs k (by omega)]
    congr 1
    refine congrArg List.length (List.filter_congr ?_)
    intro x hx
    exact decide_eq_decide.mpr (residualBinIndex_eq_iff x (hnn x hx) k hk)
  · show (residualHistogramCounts rs)[40]? = _
    rw [residualHistogramCounts_get rs 40 (by omega)]
    congr 1
    refine congrArg List.length (List.filter_congr ?_)
    intro x hx
    exact decide_eq_decide.mpr (residualBinIndex_eq_forty_iff x (hnn x hx))

/-- C2 at a concrete instance: the single residual list `[3]` is nonnegative
and its histogram has the 41 fixed buckets. -/
theorem C2_residual_statistics_witness :
    (∀ x ∈ ([3] : List Rat), 0 ≤ x) ∧
    (ComputeResidualsHistogram [3]).2.length = 41 :=
  ⟨by decide, (C2_residual_statistics [3] (by decide)).2.2.1⟩

end OpenMVG
